import Mathlib

/-!
Shallow embedding of `src/index.ts` (mcsapi): an HTTP service that starts,
stops, restarts and queries a single compute VM and layers a Minecraft
status probe on top of the VM's resolved address.

External collaborators (the compute control-plane client, the probe client)
are modelled as a `FakeAdapter` record of scripted results; every adapter
interaction is recorded as an `AdapterCall` event so that ordering claims can
be stated over the produced trace.  JavaScript truthiness on strings
(`"" is falsy`) and `parseInt` semantics are modelled explicitly.
The `while (true)` poll loop is given the adapter's wait-response sequence as
a list; exhausting the list without a terminal response models divergence and
yields `none`.
-/

namespace Mcsapi

/-- Raw instance metadata, mirroring the optional-chain accesses
`inst?.networkInterfaces?.[0]?.accessConfigs?.[0]?.natIP` and `inst.status`. -/
structure AccessConfig where
  natIP : Option String
deriving DecidableEq, Repr

structure NetworkInterface where
  accessConfigs : Option (List AccessConfig)
deriving DecidableEq, Repr

structure InstanceMeta where
  networkInterfaces : Option (List NetworkInterface)
  status : Option String
deriving DecidableEq, Repr

/-- One response of the zone-operations `wait` call (`iOp` in the source). -/
structure OperationOutcome where
  status : Option String
  statusMessage : Option String
  warnings : Option (List String)
deriving DecidableEq, Repr

/-- A sampled player from the probe response. -/
structure Player where
  name : String
  id : String
deriving DecidableEq, Repr

/-- `mcsStatus?.status?.players` -/
structure PlayersInfo where
  online : Option String
  sample : Option (List Player)
deriving DecidableEq, Repr

/-- `mcsStatus?.status` -/
structure McsStatus where
  players : Option PlayersInfo
deriving DecidableEq, Repr

/-- The probe response returned by `mc.lookup`. -/
structure McsResponse where
  status : Option McsStatus
deriving DecidableEq, Repr

deriving instance DecidableEq for Except

/-- One recorded adapter/probe interaction, with the arguments passed. -/
inductive AdapterCall where
  | startCall (project zone instName : String)
  | stopCall (project zone instName : String)
  | getCall (project zone instName : String)
  | waitCall (operation project zone : String)
  | lookupCall (host : String)
deriving DecidableEq, Repr

/-- Scripted external collaborators: `instancesClient`, `zoneOperationsClient`
and the probe client, configured for the single instance a request targets.
`waitResponses op` is the sequence of results the `wait` primitive returns for
operation `op`, in call order. -/
structure FakeAdapter where
  startResult : Except String String
  stopResult : Except String String
  getResult : Except String InstanceMeta
  waitResponses : String → List (Except String OperationOutcome)
  lookupResult : String → Except String McsResponse

/-- An HTTP request carrying optional `zone` / `instance` parameters in the
query and the body. -/
structure Request where
  queryZone : Option String
  queryInstance : Option String
  bodyZone : Option String
  bodyInstance : Option String
deriving DecidableEq, Repr

/-- The rendered HTTP response: status code and body. -/
structure HttpResponse where
  statusCode : Nat
  body : String
deriving DecidableEq, Repr

/-- JavaScript truthiness of an optional string: `undefined` and `""` are
falsy. -/
def truthy : Option String → Option String
  | none => none
  | some s => if s = "" then none else some s

/-- `req.query.zone || req.body.zone` -/
def effZone (req : Request) : Option String :=
  match truthy req.queryZone with
  | some z => some z
  | none => truthy req.bodyZone

/-- `req.query.instance || req.body.instance` -/
def effInstance (req : Request) : Option String :=
  match truthy req.queryInstance with
  | some i => some i
  | none => truthy req.bodyInstance

/-- `reqZoneInstance` (source lines 22-28): extract the `(zone, instance)`
pair, throwing on a missing `zone` first, then on a missing `instance`. -/
def reqZoneInstance (req : Request) : Except String (String × String) :=
  match effZone req with
  | none => .error "Required parameter 'zone' missing"
  | some zone =>
    match effInstance req with
    | none => .error "Required parameter 'instance' missing"
    | some instName => .ok (zone, instName)

/-- `waitForComputeIOperation` (source lines 167-185): repeatedly call the
zone-operations `wait` primitive, log `statusMessage`/`warnings` (diagnostics
only, no control flow), and stop as soon as a response's status is `"DONE"`.
The adapter's successive responses are given as a list; `none` means the list
was exhausted with no terminal response (the loop would still be running). -/
def waitForComputeIOperation (project zone operation : String) :
    List (Except String OperationOutcome) →
    Option (Except String Unit × List AdapterCall)
  | [] => none
  | r :: rs =>
    match r with
    | .error e => some (.error e, [.waitCall operation project zone])
    | .ok iOp =>
      if iOp.status = some "DONE" then
        some (.ok (), [.waitCall operation project zone])
      else
        match waitForComputeIOperation project zone operation rs with
        | none => none
        | some (res, tr) => some (res, .waitCall operation project zone :: tr)

/-- `startInstance` (source lines 121-129): issue the start mutation, then
poll the returned operation to completion. -/
def startInstance (a : FakeAdapter) (project zone instName : String) :
    Option (Except String Unit × List AdapterCall) :=
  match a.startResult with
  | .error e => some (.error e, [.startCall project zone instName])
  | .ok opName =>
    match waitForComputeIOperation project zone opName (a.waitResponses opName) with
    | none => none
    | some (res, tr) => some (res, .startCall project zone instName :: tr)

/-- `stopInstance` (source lines 131-139): issue the stop mutation, then poll
the returned operation to completion. -/
def stopInstance (a : FakeAdapter) (project zone instName : String) :
    Option (Except String Unit × List AdapterCall) :=
  match a.stopResult with
  | .error e => some (.error e, [.stopCall project zone instName])
  | .ok opName =>
    match waitForComputeIOperation project zone opName (a.waitResponses opName) with
    | none => none
    | some (res, tr) => some (res, .stopCall project zone instName :: tr)

/-- The pure extraction of `getVmInstance` (source lines 161-164): address is
`networkInterfaces?.[0]?.accessConfigs?.[0]?.natIP || undefined`, status is
`inst.status || undefined`; `|| undefined` turns the falsy `""` into
absence. -/
def extractVmState (inst : InstanceMeta) : Option String × Option String :=
  let rawIp : Option String :=
    match inst.networkInterfaces with
    | none => none
    | some nis =>
      match nis.head? with
      | none => none
      | some ni =>
        match ni.accessConfigs with
        | none => none
        | some acs =>
          match acs.head? with
          | none => none
          | some ac => ac.natIP
  (truthy rawIp, truthy inst.status)

/-- `getVmInstance` (source lines 155-165): fetch the instance metadata via
the adapter (one `get` call) and extract the `(ip, status)` pair. -/
def getVmInstance (a : FakeAdapter) (project zone instName : String) :
    Except String (Option String × Option String) × List AdapterCall :=
  match a.getResult with
  | .error e => (.error e, [.getCall project zone instName])
  | .ok inst => (.ok (extractVmState inst), [.getCall project zone instName])

/-- The rendering done by `vmStatusString` (source line 143):
`[ip, status].filter((x) => x).join("\n") + "\n"`. -/
def renderStatus (st : Option String × Option String) : String :=
  String.intercalate "\n" ([st.1, st.2].filterMap id) ++ "\n"

/-- `vmStatusString` (source lines 141-144): resolve the instance state and
render the truthy fields, newline-joined with a trailing newline. -/
def vmStatusString (a : FakeAdapter) (project zone instName : String) :
    Except String String × List AdapterCall :=
  match getVmInstance a project zone instName with
  | (.error e, tr) => (.error e, tr)
  | (.ok st, tr) => (.ok (renderStatus st), tr)

/-- The error message thrown by `getVmIP` when the address is absent. -/
def ipNotFoundMsg (zone instName : String) : String :=
  "Instance " ++ zone ++ "/" ++ instName ++
    " IP address not found - unable to connect MCS"

/-- `getVmIP` (source lines 146-153): resolve the instance state and fail
with a message naming the zone and instance when the address is falsy. -/
def getVmIP (a : FakeAdapter) (project zone instName : String) :
    Except String String × List AdapterCall :=
  match getVmInstance a project zone instName with
  | (.error e, tr) => (.error e, tr)
  | (.ok st, tr) =>
    match st.1 with
    | none => (.error (ipNotFoundMsg zone instName), tr)
    | some ip => (.ok ip, tr)

/-- The result of JavaScript `parseInt`: an integer or `NaN`. -/
inductive JSNum where
  | nan
  | int (n : Int)
deriving DecidableEq, Repr

/-- How a `JSNum` renders inside a template literal. -/
def JSNum.render : JSNum → String
  | .nan => "NaN"
  | .int n => toString n

/-- Numeric value of a list of decimal digits. -/
def digitsVal (cs : List Char) : Nat :=
  cs.foldl (fun acc c => acc * 10 + (c.toNat - 48)) 0

/-- JavaScript `parseInt` on a possibly-undefined string: `undefined` parses
as `NaN` (its coercion `"undefined"` has no leading digits); otherwise skip
leading whitespace, read an optional sign and then the longest prefix of
decimal digits, `NaN` if that prefix is empty. -/
def parseIntJS : Option String → JSNum
  | none => .nan
  | some s =>
    let cs := s.toList.dropWhile Char.isWhitespace
    let signed : Bool × List Char :=
      match cs with
      | '-' :: rest => (true, rest)
      | '+' :: rest => (false, rest)
      | _ => (false, cs)
    let ds := signed.2.takeWhile Char.isDigit
    if ds.isEmpty then .nan
    else .int ((if signed.1 then -1 else 1) * (digitsVal ds : Int))

/-- JSON string literal with the escapes `JSON.stringify` applies. -/
def escapeJsonChar (c : Char) : String :=
  if c = '"' then "\\\""
  else if c = '\\' then "\\\\"
  else if c = '\n' then "\\n"
  else if c = '\t' then "\\t"
  else if c = '\r' then "\\r"
  else String.singleton c

def escapeJson (s : String) : String :=
  String.join (s.toList.map escapeJsonChar)

def jsonStr (s : String) : String :=
  "\"" ++ escapeJson s ++ "\""

/-- `JSON.stringify(player, null, 2)` at indentation `ind`. -/
def playerJson (ind : String) (p : Player) : String :=
  ind ++ "\x7b\n" ++
  ind ++ "  " ++ jsonStr "name" ++ ": " ++ jsonStr p.name ++ ",\n" ++
  ind ++ "  " ++ jsonStr "id" ++ ": " ++ jsonStr p.id ++ "\n" ++
  ind ++ "\x7d"

def sampleJson (ind : String) (ps : List Player) : String :=
  if ps.isEmpty then "[]"
  else
    "[\n" ++ String.intercalate ",\n" (ps.map (playerJson (ind ++ "  "))) ++
      "\n" ++ ind ++ "]"

/-- Render an object from its already-indented field lines, as
`JSON.stringify(-, null, 2)` does; keys bound to `undefined` are omitted by
the caller. -/
def jsonObj (ind : String) (fields : List String) : String :=
  if fields.isEmpty then "\x7b\x7d"
  else "\x7b\n" ++ String.intercalate ",\n" fields ++ "\n" ++ ind ++ "\x7d"

def playersInfoJson (ind : String) (p : PlayersInfo) : String :=
  jsonObj ind
    ((match p.online with
      | some s => [ind ++ "  " ++ jsonStr "online" ++ ": " ++ jsonStr s]
      | none => []) ++
     (match p.sample with
      | some ps => [ind ++ "  " ++ jsonStr "sample" ++ ": " ++
          sampleJson (ind ++ "  ") ps]
      | none => []))

def mcsStatusJson (ind : String) (st : McsStatus) : String :=
  jsonObj ind
    (match st.players with
     | some p => [ind ++ "  " ++ jsonStr "players" ++ ": " ++
         playersInfoJson (ind ++ "  ") p]
     | none => [])

/-- `JSON.stringify(mcsStatus, null, 2)` on the modelled response shape. -/
def mcsResponseJson (resp : McsResponse) : String :=
  jsonObj ""
    (match resp.status with
     | some st => ["  " ++ jsonStr "status" ++ ": " ++ mcsStatusJson "  " st]
     | none => [])

/-- The V8 message of the `TypeError` raised by
`playersList.map(...)` when `playersList` is `undefined`. -/
def typeErrorMapMsg : String :=
  "Cannot read properties of undefined (reading 'map')"

/-- The body sent by `mcsPlayersFunc` once a probe response is in hand:
`` `${parseInt(mcsStatus?.status?.players?.online)}\n` ``. -/
def mcsPlayersBody (resp : McsResponse) : String :=
  (parseIntJS ((resp.status.bind fun st => st.players).bind
      fun p => p.online)).render ++ "\n"

/-- `vmStartFunc` (source lines 30-40): parse parameters, start the instance,
poll to terminal, then send the rendered status; any error becomes a 500
response with body `"Error: " + message`. `none` models a diverging poll. -/
def vmStartFunc (a : FakeAdapter) (project : String) (req : Request) :
    Option (HttpResponse × List AdapterCall) :=
  match reqZoneInstance req with
  | .error e => some (⟨500, "Error: " ++ e⟩, [])
  | .ok (zone, instName) =>
    match startInstance a project zone instName with
    | none => none
    | some (.error e, tr) => some (⟨500, "Error: " ++ e⟩, tr)
    | some (.ok _, tr1) =>
      match vmStatusString a project zone instName with
      | (.error e, tr2) => some (⟨500, "Error: " ++ e⟩, tr1 ++ tr2)
      | (.ok body, tr2) => some (⟨200, body⟩, tr1 ++ tr2)

/-- `vmStopFunc` (source lines 42-52). -/
def vmStopFunc (a : FakeAdapter) (project : String) (req : Request) :
    Option (HttpResponse × List AdapterCall) :=
  match reqZoneInstance req with
  | .error e => some (⟨500, "Error: " ++ e⟩, [])
  | .ok (zone, instName) =>
    match stopInstance a project zone instName with
    | none => none
    | some (.error e, tr) => some (⟨500, "Error: " ++ e⟩, tr)
    | some (.ok _, tr1) =>
      match vmStatusString a project zone instName with
      | (.error e, tr2) => some (⟨500, "Error: " ++ e⟩, tr1 ++ tr2)
      | (.ok body, tr2) => some (⟨200, body⟩, tr1 ++ tr2)

/-- `vmRestartFunc` (source lines 54-65): `await stopInstance` fully, then
`await startInstance` fully, then send the rendered status. -/
def vmRestartFunc (a : FakeAdapter) (project : String) (req : Request) :
    Option (HttpResponse × List AdapterCall) :=
  match reqZoneInstance req with
  | .error e => some (⟨500, "Error: " ++ e⟩, [])
  | .ok (zone, instName) =>
    match stopInstance a project zone instName with
    | none => none
    | some (.error e, tr) => some (⟨500, "Error: " ++ e⟩, tr)
    | some (.ok _, tr1) =>
      match startInstance a project zone instName with
      | none => none
      | some (.error e, tr2) => some (⟨500, "Error: " ++ e⟩, tr1 ++ tr2)
      | some (.ok _, tr2) =>
        match vmStatusString a project zone instName with
        | (.error e, tr3) => some (⟨500, "Error: " ++ e⟩, tr1 ++ tr2 ++ tr3)
        | (.ok body, tr3) => some (⟨200, body⟩, tr1 ++ tr2 ++ tr3)

/-- `vmStatusFunc` (source lines 67-76): no mutation, just resolve and
render. -/
def vmStatusFunc (a : FakeAdapter) (project : String) (req : Request) :
    HttpResponse × List AdapterCall :=
  match reqZoneInstance req with
  | .error e => (⟨500, "Error: " ++ e⟩, [])
  | .ok (zone, instName) =>
    match vmStatusString a project zone instName with
    | (.error e, tr) => (⟨500, "Error: " ++ e⟩, tr)
    | (.ok body, tr) => (⟨200, body⟩, tr)

/-- `mcsStatusFunc` (source lines 78-90): resolve the address, probe it, and
send the pretty-printed JSON response with a trailing newline. -/
def mcsStatusFunc (a : FakeAdapter) (project : String) (req : Request) :
    HttpResponse × List AdapterCall :=
  match reqZoneInstance req with
  | .error e => (⟨500, "Error: " ++ e⟩, [])
  | .ok (zone, instName) =>
    match getVmIP a project zone instName with
    | (.error e, tr) => (⟨500, "Error: " ++ e⟩, tr)
    | (.ok ip, tr) =>
      match a.lookupResult ip with
      | .error e => (⟨500, "Error: " ++ e⟩, tr ++ [.lookupCall ip])
      | .ok resp =>
        (⟨200, mcsResponseJson resp ++ "\n"⟩, tr ++ [.lookupCall ip])

/-- `mcsPlayersFunc` (source lines 92-104): resolve the address, probe it,
and send `parseInt(mcsStatus?.status?.players?.online)` followed by a
newline. -/
def mcsPlayersFunc (a : FakeAdapter) (project : String) (req : Request) :
    HttpResponse × List AdapterCall :=
  match reqZoneInstance req with
  | .error e => (⟨500, "Error: " ++ e⟩, [])
  | .ok (zone, instName) =>
    match getVmIP a project zone instName with
    | (.error e, tr) => (⟨500, "Error: " ++ e⟩, tr)
    | (.ok ip, tr) =>
      match a.lookupResult ip with
      | .error e => (⟨500, "Error: " ++ e⟩, tr ++ [.lookupCall ip])
      | .ok resp =>
        (⟨200, mcsPlayersBody resp⟩, tr ++ [.lookupCall ip])

/-- `mcsPlayerListFunc` (source lines 106-119): resolve the address, probe
it, and map the sample array to `"<name> <id>"` lines; when the sample array
is `undefined`, `.map` raises a `TypeError`, caught and sent as a 500. -/
def mcsPlayerListFunc (a : FakeAdapter) (project : String) (req : Request) :
    HttpResponse × List AdapterCall :=
  match reqZoneInstance req with
  | .error e => (⟨500, "Error: " ++ e⟩, [])
  | .ok (zone, instName) =>
    match getVmIP a project zone instName with
    | (.error e, tr) => (⟨500, "Error: " ++ e⟩, tr)
    | (.ok ip, tr) =>
      match a.lookupResult ip with
      | .error e => (⟨500, "Error: " ++ e⟩, tr ++ [.lookupCall ip])
      | .ok resp =>
        match (resp.status.bind fun st => st.players).bind fun p => p.sample with
        | none => (⟨500, "Error: " ++ typeErrorMapMsg⟩, tr ++ [.lookupCall ip])
        | some ps =>
          (⟨200, String.intercalate "\n"
              (ps.map fun p => p.name ++ " " ++ p.id) ++ "\n"⟩,
           tr ++ [.lookupCall ip])

/-- Is a recorded call the start mutation? -/
def AdapterCall.isStart : AdapterCall → Bool
  | .startCall _ _ _ => true
  | _ => false

/-! Shared concrete fixtures for witnesses. -/

/-- A non-terminal wait response. -/
def oPending : OperationOutcome := ⟨some "RUNNING", none, none⟩

/-- A non-terminal wait response carrying a status message and warnings. -/
def oPendingMsg : OperationOutcome :=
  ⟨some "RUNNING", some "still working", some ["w1"]⟩

/-- The terminal wait response. -/
def oDone : OperationOutcome := ⟨some "DONE", none, none⟩

/-- A request with `zone=z0`, `instance=i0` in the query. -/
def R0 : Request := ⟨some "z0", some "i0", none, none⟩

/-- Running-instance metadata with an external address. -/
def meta0 : InstanceMeta := ⟨some [⟨some [⟨some "1.2.3.4"⟩]⟩], some "RUNNING"⟩

/-- A fully-succeeding fake adapter: the stop operation needs two wait calls,
the start operation one, and the probe reports two sampled players. -/
def A2 : FakeAdapter :=
  { startResult := .ok "op-start"
    stopResult := .ok "op-stop"
    getResult := .ok meta0
    waitResponses := fun op =>
      if op = "op-stop" then [.ok oPending, .ok oDone] else [.ok oDone]
    lookupResult := fun _ =>
      .ok ⟨some ⟨some ⟨some "5", some [⟨"Alice", "u1"⟩, ⟨"Bob", "u2"⟩]⟩⟩⟩ }

/-! Helper lemmas shared between claims. -/

/-- The poller only ever records `wait` calls. -/
theorem waitCalls_no_start (project zone operation : String)
    (rs : List (Except String OperationOutcome)) (res : Except String Unit)
    (tr : List AdapterCall)
    (h : waitForComputeIOperation project zone operation rs = some (res, tr)) :
    ∀ c ∈ tr, c.isStart = false := by
  induction rs generalizing res tr with
  | nil => simp [waitForComputeIOperation] at h
  | cons r rs ih =>
    cases r with
    | error e =>
      simp only [waitForComputeIOperation, Option.some.injEq, Prod.mk.injEq] at h
      obtain ⟨h1, h2⟩ := h
      subst h2
      simp [AdapterCall.isStart]
    | ok iOp =>
      by_cases hd : iOp.status = some "DONE"
      · simp only [waitForComputeIOperation, if_pos hd, Option.some.injEq,
          Prod.mk.injEq] at h
        obtain ⟨h1, h2⟩ := h
        subst h2
        simp [AdapterCall.isStart]
      · simp only [waitForComputeIOperation, if_neg hd] at h
        cases hrec : waitForComputeIOperation project zone operation rs with
        | none => rw [hrec] at h; simp at h
        | some p =>
          obtain ⟨res', tr'⟩ := p
          rw [hrec] at h
          simp only [Option.some.injEq, Prod.mk.injEq] at h
          obtain ⟨h1, h2⟩ := h
          subst h2
          intro c hc
          rcases List.mem_cons.mp hc with hc | hc
          · subst hc; simp [AdapterCall.isStart]
          · exact ih res' tr' hrec c hc

/-- The stop phase only records the stop mutation and wait calls: no start
mutation appears in its trace. -/
theorem stopInstance_no_start (a : FakeAdapter) (project zone instName : String)
    (res : Except String Unit) (tr : List AdapterCall)
    (h : stopInstance a project zone instName = some (res, tr)) :
    ∀ c ∈ tr, c.isStart = false := by
  cases hs : a.stopResult with
  | error e =>
    simp only [stopInstance, hs, Option.some.injEq, Prod.mk.injEq] at h
    obtain ⟨h1, h2⟩ := h
    subst h2
    simp [AdapterCall.isStart]
  | ok opName =>
    cases hw : waitForComputeIOperation project zone opName
        (a.waitResponses opName) with
    | none => simp [stopInstance, hs, hw] at h
    | some p =>
      obtain ⟨res', tr'⟩ := p
      simp only [stopInstance, hs, hw, Option.some.injEq, Prod.mk.injEq] at h
      obtain ⟨h1, h2⟩ := h
      subst h2
      intro c hc
      rcases List.mem_cons.mp hc with hc | hc
      · subst hc; simp [AdapterCall.isStart]
      · exact waitCalls_no_start project zone opName
          (a.waitResponses opName) res' tr' hw c hc

/-- C1: if the adapter's wait sequence first reports status `"DONE"` at
(0-based) index `i`, the Operation Poller makes exactly `i + 1` wait calls —
each recorded with the operation's identifiers — and returns successfully
right after the terminal one, whatever the earlier responses' statuses,
status messages or warnings were. -/
theorem poller_stops_at_first_done (project zone operation : String)
    (resps : List OperationOutcome) (i : Nat) (r : OperationOutcome)
    (hi : resps[i]? = some r) (hdone : r.status = some "DONE")
    (hbefore : ∀ j r', j < i → resps[j]? = some r' → r'.status ≠ some "DONE") :
    waitForComputeIOperation project zone operation (resps.map Except.ok) =
      some (Except.ok (),
        List.replicate (i + 1) (AdapterCall.waitCall operation project zone)) := by
  induction resps generalizing i with
  | nil => simp at hi
  | cons hd tl ih =>
    cases i with
    | zero =>
      simp only [List.getElem?_cons_zero, Option.some.injEq] at hi
      subst hi
      simp [waitForComputeIOperation, hdone, List.replicate]
    | succ j =>
      have hhd : hd.status ≠ some "DONE" :=
        hbefore 0 hd (Nat.succ_pos j) (by simp)
      have hrec := ih j (by simpa using hi)
        (fun k r' hk hk2 => hbefore (k + 1) r' (by omega) (by simpa using hk2))
      simp only [List.map_cons, waitForComputeIOperation, if_neg hhd, hrec]
      simp [List.replicate]

/-- C1 witness: three non-terminal responses (one with warnings and a status
message) followed by the terminal one yield exactly four wait calls and a
successful return. -/
theorem poller_stops_at_first_done_witness :
    waitForComputeIOperation "p0" "z0" "op0"
      ([oPending, oPendingMsg, oPending, oDone].map Except.ok) =
      some (Except.ok (),
        List.replicate 4 (AdapterCall.waitCall "op0" "p0" "z0")) := by
  have h := poller_stops_at_first_done "p0" "z0" "op0"
    [oPending, oPendingMsg, oPending, oDone] 3 oDone (by decide) (by decide)
    (by
      intro j r' hj hget
      interval_cases j <;>
        simp only [List.getElem?_cons_zero, List.getElem?_cons_succ,
          Option.some.injEq] at hget <;>
        subst hget <;> decide)
  simpa using h

/-- C2: whenever a restart issues the start mutation at all, its adapter
trace splits as the stop phase's trace followed by the rest, the stop phase
ended with a successful terminal poll (`stopInstance` returned `ok`), and no
start mutation occurs anywhere inside the stop phase: the start call never
precedes — nor interleaves with — the completion of the stop operation's
terminal poll. -/
theorem restart_stop_before_start (a : FakeAdapter) (project : String)
    (req : Request) (zone instName : String)
    (hreq : reqZoneInstance req = .ok (zone, instName))
    (resp : HttpResponse) (tr : List AdapterCall)
    (h : vmRestartFunc a project req = some (resp, tr))
    (hstart : ∃ c ∈ tr, c.isStart = true) :
    ∃ stopTr rest, tr = stopTr ++ rest ∧
      stopInstance a project zone instName = some (Except.ok (), stopTr) ∧
      ∀ c ∈ stopTr, c.isStart = false := by
  cases hstop : stopInstance a project zone instName with
  | none => simp [vmRestartFunc, hreq, hstop] at h
  | some p =>
    obtain ⟨sres, str⟩ := p
    cases sres with
    | error e =>
      simp only [vmRestartFunc, hreq, hstop, Option.some.injEq,
        Prod.mk.injEq] at h
      obtain ⟨h1, h2⟩ := h
      subst h2
      obtain ⟨c, hc, hcs⟩ := hstart
      have := stopInstance_no_start a project zone instName (.error e) str
        hstop c hc
      rw [this] at hcs
      exact absurd hcs (by simp)
    | ok u =>
      cases u
      have hstop' : stopInstance a project zone instName =
          some (Except.ok (), str) := hstop
      have hnostart := stopInstance_no_start a project zone instName
        (Except.ok ()) str hstop'
      cases hst : startInstance a project zone instName with
      | none => simp [vmRestartFunc, hreq, hstop, hst] at h
      | some q =>
        obtain ⟨stres, sttr⟩ := q
        cases stres with
        | error e =>
          simp only [vmRestartFunc, hreq, hstop, hst, Option.some.injEq,
            Prod.mk.injEq] at h
          obtain ⟨h1, h2⟩ := h
          exact ⟨str, sttr, h2.symm, rfl, hnostart⟩
        | ok u2 =>
          cases hv : vmStatusString a project zone instName with
          | mk vres vtr =>
            cases vres with
            | error e =>
              simp only [vmRestartFunc, hreq, hstop, hst, hv,
                Option.some.injEq, Prod.mk.injEq] at h
              obtain ⟨h1, h2⟩ := h
              exact ⟨str, sttr ++ vtr,
                h2.symm.trans (List.append_assoc str sttr vtr),
                rfl, hnostart⟩
            | ok body =>
              simp only [vmRestartFunc, hreq, hstop, hst, hv,
                Option.some.injEq, Prod.mk.injEq] at h
              obtain ⟨h1, h2⟩ := h
              exact ⟨str, sttr ++ vtr,
                h2.symm.trans (List.append_assoc str sttr vtr),
                rfl, hnostart⟩

/-- C2 witness: on a fully-succeeding adapter, the restart trace splits after
the stop phase (stop mutation plus its two polls), which contains no start
call. -/
theorem restart_stop_before_start_witness :
    ∃ stopTr rest,
      ([AdapterCall.stopCall "p0" "z0" "i0",
        AdapterCall.waitCall "op-stop" "p0" "z0",
        AdapterCall.waitCall "op-stop" "p0" "z0",
        AdapterCall.startCall "p0" "z0" "i0",
        AdapterCall.waitCall "op-start" "p0" "z0",
        AdapterCall.getCall "p0" "z0" "i0"] : List AdapterCall) =
        stopTr ++ rest ∧
      stopInstance A2 "p0" "z0" "i0" = some (Except.ok (), stopTr) ∧
      ∀ c ∈ stopTr, c.isStart = false :=
  restart_stop_before_start A2 "p0" R0 "z0" "i0" (by decide)
    ⟨200, "1.2.3.4\nRUNNING\n"⟩
    [AdapterCall.stopCall "p0" "z0" "i0",
     AdapterCall.waitCall "op-stop" "p0" "z0",
     AdapterCall.waitCall "op-stop" "p0" "z0",
     AdapterCall.startCall "p0" "z0" "i0",
     AdapterCall.waitCall "op-start" "p0" "z0",
     AdapterCall.getCall "p0" "z0" "i0"] (by decide)
    ⟨AdapterCall.startCall "p0" "z0" "i0", by decide, rfl⟩

/-- An adapter whose stop mutation itself fails. -/
def A8 : FakeAdapter := { A2 with stopResult := .error "stop failed" }

/-- C8: an adapter/poller error aborts the whole lifecycle operation: if the
stop phase of a restart fails with message `e`, the restart responds with
HTTP 500 and body `"Error: " ++ e` (the message unmodified), its trace is the
failed stop phase alone — so the start mutation was never issued — and a
failing start phase likewise surfaces verbatim at the boundary of the start
route. -/
theorem restart_error_aborts (a : FakeAdapter) (project : String)
    (req : Request) (zone instName e : String) (tr : List AdapterCall)
    (hreq : reqZoneInstance req = .ok (zone, instName))
    (hstop : stopInstance a project zone instName = some (.error e, tr)) :
    vmRestartFunc a project req = some (⟨500, "Error: " ++ e⟩, tr) ∧
    (∀ c ∈ tr, c.isStart = false) ∧
    (∀ e' tr', startInstance a project zone instName = some (.error e', tr') →
      vmStartFunc a project req = some (⟨500, "Error: " ++ e'⟩, tr')) := by
  refine ⟨?_,
    stopInstance_no_start a project zone instName (.error e) tr hstop, ?_⟩
  · simp [vmRestartFunc, hreq, hstop]
  · intro e' tr' hstart
    simp [vmStartFunc, hreq, hstart]

/-- C8 witness: a failing stop mutation makes the restart route answer 500
with the original message, having recorded only the stop call. -/
theorem restart_error_aborts_witness :
    vmRestartFunc A8 "p0" R0 =
      some (⟨500, "Error: " ++ "stop failed"⟩,
        [AdapterCall.stopCall "p0" "z0" "i0"]) ∧
    (∀ c ∈ ([AdapterCall.stopCall "p0" "z0" "i0"] : List AdapterCall),
      c.isStart = false) ∧
    (∀ e' tr', startInstance A8 "p0" "z0" "i0" = some (.error e', tr') →
      vmStartFunc A8 "p0" R0 = some (⟨500, "Error: " ++ e'⟩, tr')) :=
  restart_error_aborts A8 "p0" R0 "z0" "i0" "stop failed"
    [AdapterCall.stopCall "p0" "z0" "i0"] (by decide) (by decide)

/-- C3: when the metadata fetch succeeds, the status route — and every
successful start, stop and restart response — carries exactly
`renderStatus` of the resolved state: the present fields joined by a newline
in the order address then status, one trailing newline, absent fields
omitted with no blank line. -/
theorem status_text_shape (a : FakeAdapter) (project : String) (req : Request)
    (zone instName : String) (meta : InstanceMeta)
    (hreq : reqZoneInstance req = .ok (zone, instName))
    (hget : a.getResult = .ok meta) :
    vmStatusFunc a project req =
      (⟨200, renderStatus (extractVmState meta)⟩,
        [AdapterCall.getCall project zone instName]) ∧
    (∀ r tr, vmStartFunc a project req = some (r, tr) → r.statusCode = 200 →
      r.body = renderStatus (extractVmState meta)) ∧
    (∀ r tr, vmStopFunc a project req = some (r, tr) → r.statusCode = 200 →
      r.body = renderStatus (extractVmState meta)) ∧
    (∀ r tr, vmRestartFunc a project req = some (r, tr) → r.statusCode = 200 →
      r.body = renderStatus (extractVmState meta)) ∧
    (∀ ip st, extractVmState meta = (some ip, some st) →
      renderStatus (extractVmState meta) = ip ++ "\n" ++ st ++ "\n") ∧
    (∀ ip, extractVmState meta = (some ip, none) →
      renderStatus (extractVmState meta) = ip ++ "\n") ∧
    (∀ st, extractVmState meta = (none, some st) →
      renderStatus (extractVmState meta) = st ++ "\n") := by
  refine ⟨?_, ?_, ?_, ?_, ?_, ?_, ?_⟩
  · simp [vmStatusFunc, hreq, vmStatusString, getVmInstance, hget]
  · intro r tr h h200
    cases hst : startInstance a project zone instName with
    | none => simp [vmStartFunc, hreq, hst] at h
    | some q =>
      obtain ⟨sres, sttr⟩ := q
      cases sres with
      | error e =>
        simp only [vmStartFunc, hreq, hst, Option.some.injEq,
          Prod.mk.injEq] at h
        rw [← h.1] at h200
        simp at h200
      | ok u =>
        simp only [vmStartFunc, hreq, hst, vmStatusString, getVmInstance,
          hget, Option.some.injEq, Prod.mk.injEq] at h
        rw [← h.1]
  · intro r tr h h200
    cases hst : stopInstance a project zone instName with
    | none => simp [vmStopFunc, hreq, hst] at h
    | some q =>
      obtain ⟨sres, sttr⟩ := q
      cases sres with
      | error e =>
        simp only [vmStopFunc, hreq, hst, Option.some.injEq,
          Prod.mk.injEq] at h
        rw [← h.1] at h200
        simp at h200
      | ok u =>
        simp only [vmStopFunc, hreq, hst, vmStatusString, getVmInstance,
          hget, Option.some.injEq, Prod.mk.injEq] at h
        rw [← h.1]
  · intro r tr h h200
    cases hst : stopInstance a project zone instName with
    | none => simp [vmRestartFunc, hreq, hst] at h
    | some q =>
      obtain ⟨sres, sttr⟩ := q
      cases sres with
      | error e =>
        simp only [vmRestartFunc, hreq, hst, Option.some.injEq,
          Prod.mk.injEq] at h
        rw [← h.1] at h200
        simp at h200
      | ok u =>
        cases hst2 : startInstance a project zone instName with
        | none => simp [vmRestartFunc, hreq, hst, hst2] at h
        | some q2 =>
          obtain ⟨sres2, sttr2⟩ := q2
          cases sres2 with
          | error e =>
            simp only [vmRestartFunc, hreq, hst, hst2, Option.some.injEq,
              Prod.mk.injEq] at h
            rw [← h.1] at h200
            simp at h200
          | ok u2 =>
            simp only [vmRestartFunc, hreq, hst, hst2, vmStatusString,
              getVmInstance, hget, Option.some.injEq, Prod.mk.injEq] at h
            rw [← h.1]
  · intro ip st heq
    rw [heq]
    rfl
  · intro ip heq
    rw [heq]
    rfl
  · intro st heq
    rw [heq]
    rfl

/-- C3 witness: resolving `(address = "1.2.3.4", status = "RUNNING")` makes
the status route answer exactly `"1.2.3.4\nRUNNING\n"`. -/
theorem status_text_shape_witness :
    vmStatusFunc A2 "p0" R0 =
      (⟨200, "1.2.3.4\nRUNNING\n"⟩, [AdapterCall.getCall "p0" "z0" "i0"]) :=
  ((status_text_shape A2 "p0" R0 "z0" "i0" meta0 (by decide) rfl).1).trans
    (by decide)

/-- A probe response whose `players` object has no `online` field. -/
def respNoOnline : McsResponse := ⟨some ⟨some ⟨none, some []⟩⟩⟩

/-- An adapter whose probe response omits the online-player count. -/
def A4 : FakeAdapter := { A2 with lookupResult := fun _ => .ok respNoOnline }

/-- C4 counterexample: with `status.players.online` absent from the probe
response, the player-count route does not fail — it succeeds (HTTP 200) with
body exactly `"NaN\n"`, because `parseInt(undefined)` is `NaN` and the
template renders it as text. -/
theorem playerCount_nan_counterexample :
    ((respNoOnline.status.bind fun st => st.players).bind fun p => p.online)
        = none ∧
    mcsPlayersFunc A4 "p0" R0 =
      (⟨200, "NaN\n"⟩, [AdapterCall.getCall "p0" "z0" "i0",
        AdapterCall.lookupCall "1.2.3.4"]) :=
  ⟨by decide, by decide⟩

/-- C4 (amended): when the probe response omits `status.players.online`, the
player-count route succeeds with body `"NaN\n"` (it does not fail, and does
not return `"0\n"`); when `online` is present and parses as the integer `n`,
the route returns `n` as a decimal string followed by a newline. -/
theorem playerCount_parse (a : FakeAdapter) (project : String) (req : Request)
    (zone instName ip : String) (meta : InstanceMeta) (resp : McsResponse)
    (hreq : reqZoneInstance req = .ok (zone, instName))
    (hget : a.getResult = .ok meta)
    (hip : (extractVmState meta).1 = some ip)
    (hlook : a.lookupResult ip = .ok resp) :
    (((resp.status.bind fun st => st.players).bind fun p => p.online) = none →
      mcsPlayersFunc a project req =
        (⟨200, "NaN\n"⟩, [AdapterCall.getCall project zone instName,
          AdapterCall.lookupCall ip])) ∧
    (∀ s n,
      ((resp.status.bind fun st => st.players).bind fun p => p.online) =
        some s →
      parseIntJS (some s) = JSNum.int n →
      mcsPlayersFunc a project req =
        (⟨200, toString n ++ "\n"⟩,
          [AdapterCall.getCall project zone instName,
           AdapterCall.lookupCall ip])) := by
  constructor
  · intro hnone
    simp [mcsPlayersFunc, hreq, getVmIP, getVmInstance, hget, hip, hlook,
      mcsPlayersBody, hnone, parseIntJS, JSNum.render]
  · intro s n hsome hparse
    simp [mcsPlayersFunc, hreq, getVmIP, getVmInstance, hget, hip, hlook,
      mcsPlayersBody, hsome, hparse, JSNum.render]

/-- C4 witness: `online = "5"` yields exactly the body `"5\n"`. -/
theorem playerCount_parse_witness :
    mcsPlayersFunc A2 "p0" R0 =
      (⟨200, "5\n"⟩, [AdapterCall.getCall "p0" "z0" "i0",
        AdapterCall.lookupCall "1.2.3.4"]) :=
  ((playerCount_parse A2 "p0" R0 "z0" "i0" "1.2.3.4" meta0
      ⟨some ⟨some ⟨some "5", some [⟨"Alice", "u1"⟩, ⟨"Bob", "u2"⟩]⟩⟩⟩
      (by decide) rfl (by decide) rfl).2 "5" 5 (by decide)
    (by decide)).trans (by decide)

/-- An adapter whose probe response has no player sample array. -/
def A5 : FakeAdapter :=
  { A2 with lookupResult := fun _ => .ok ⟨some ⟨some ⟨some "5", none⟩⟩⟩ }

/-- C5: with a sample array present the player-list route renders one
`"<name> <id>"` line per sampled player, newline-joined with a trailing
newline; with the sample array absent it fails (HTTP 500) instead of
answering an empty or blank-line body. -/
theorem playerList_shape (a : FakeAdapter) (project : String) (req : Request)
    (zone instName ip : String) (meta : InstanceMeta) (resp : McsResponse)
    (hreq : reqZoneInstance req = .ok (zone, instName))
    (hget : a.getResult = .ok meta)
    (hip : (extractVmState meta).1 = some ip)
    (hlook : a.lookupResult ip = .ok resp) :
    (∀ ps,
      ((resp.status.bind fun st => st.players).bind fun p => p.sample) =
        some ps →
      mcsPlayerListFunc a project req =
        (⟨200, String.intercalate "\n"
            (ps.map fun p => p.name ++ " " ++ p.id) ++ "\n"⟩,
          [AdapterCall.getCall project zone instName,
           AdapterCall.lookupCall ip])) ∧
    (((resp.status.bind fun st => st.players).bind fun p => p.sample) =
        none →
      ∃ msg, mcsPlayerListFunc a project req =
        (⟨500, "Error: " ++ msg⟩,
          [AdapterCall.getCall project zone instName,
           AdapterCall.lookupCall ip])) := by
  constructor
  · intro ps hsome
    simp [mcsPlayerListFunc, hreq, getVmIP, getVmInstance, hget, hip, hlook,
      hsome]
  · intro hnone
    refine ⟨typeErrorMapMsg, ?_⟩
    simp [mcsPlayerListFunc, hreq, getVmIP, getVmInstance, hget, hip, hlook,
      hnone]

/-- C5 witness: the sample `[⟨Alice, u1⟩, ⟨Bob, u2⟩]` renders as
`"Alice u1\nBob u2\n"`, and an absent sample makes the route fail with a 500
response. -/
theorem playerList_shape_witness :
    mcsPlayerListFunc A2 "p0" R0 =
      (⟨200, "Alice u1\nBob u2\n"⟩, [AdapterCall.getCall "p0" "z0" "i0",
        AdapterCall.lookupCall "1.2.3.4"]) ∧
    (∃ msg, mcsPlayerListFunc A5 "p0" R0 =
      (⟨500, "Error: " ++ msg⟩, [AdapterCall.getCall "p0" "z0" "i0",
        AdapterCall.lookupCall "1.2.3.4"])) :=
  ⟨((playerList_shape A2 "p0" R0 "z0" "i0" "1.2.3.4" meta0
      ⟨some ⟨some ⟨some "5", some [⟨"Alice", "u1"⟩, ⟨"Bob", "u2"⟩]⟩⟩⟩
      (by decide) rfl (by decide) rfl).1
      [⟨"Alice", "u1"⟩, ⟨"Bob", "u2"⟩] (by decide)).trans (by decide),
   (playerList_shape A5 "p0" R0 "z0" "i0" "1.2.3.4" meta0
      ⟨some ⟨some ⟨some "5", none⟩⟩⟩
      (by decide) rfl (by decide) rfl).2 (by decide)⟩

/-- Terminated-instance metadata: a status, no network interfaces. -/
def meta6 : InstanceMeta := ⟨none, some "TERMINATED"⟩

/-- An adapter resolving to a terminated instance without an address. -/
def A6 : FakeAdapter := { A2 with getResult := .ok meta6 }

/-- C6: when the resolved state has no external address, `getVmIP` fails with
a message that contains both the zone and the instance identifier, while the
status route on the same instance still succeeds and renders only the status
line. -/
theorem no_address_fails_status_succeeds (a : FakeAdapter) (project : String)
    (req : Request) (zone instName : String) (meta : InstanceMeta)
    (hreq : reqZoneInstance req = .ok (zone, instName))
    (hget : a.getResult = .ok meta)
    (hnoip : (extractVmState meta).1 = none) :
    (∃ msg, getVmIP a project zone instName =
        (.error msg, [AdapterCall.getCall project zone instName]) ∧
      (∃ l r, msg = l ++ zone ++ r) ∧ (∃ l r, msg = l ++ instName ++ r)) ∧
    (∀ st, (extractVmState meta).2 = some st →
      vmStatusFunc a project req =
        (⟨200, st ++ "\n"⟩, [AdapterCall.getCall project zone instName])) := by
  constructor
  · refine ⟨ipNotFoundMsg zone instName, ?_, ?_, ?_⟩
    · simp [getVmIP, getVmInstance, hget, hnoip]
    · exact ⟨"Instance ",
        "/" ++ instName ++ " IP address not found - unable to connect MCS",
        by simp [ipNotFoundMsg, String.append_assoc]⟩
    · exact ⟨"Instance " ++ zone ++ "/",
        " IP address not found - unable to connect MCS",
        by simp [ipNotFoundMsg, String.append_assoc]⟩
  · intro st hst
    have hx : extractVmState meta = (none, some st) := by
      rcases hy : extractVmState meta with ⟨p1, p2⟩
      rw [hy] at hnoip hst
      simp only at hnoip hst
      rw [hnoip, hst]
    simp only [vmStatusFunc, hreq, vmStatusString, getVmInstance, hget, hx]
    rfl

/-- C6 witness: `status = "TERMINATED"`, no interfaces: the address resolver
fails with a message naming `z0` and `i0`, and the status route answers
`"TERMINATED\n"`. -/
theorem no_address_fails_status_succeeds_witness :
    (∃ msg, getVmIP A6 "p0" "z0" "i0" =
        (.error msg, [AdapterCall.getCall "p0" "z0" "i0"]) ∧
      (∃ l r, msg = l ++ "z0" ++ r) ∧ (∃ l r, msg = l ++ "i0" ++ r)) ∧
    vmStatusFunc A6 "p0" R0 =
      (⟨200, "TERMINATED\n"⟩, [AdapterCall.getCall "p0" "z0" "i0"]) := by
  have h := no_address_fails_status_succeeds A6 "p0" R0 "z0" "i0" meta6
    (by decide) rfl (by decide)
  exact ⟨h.1, h.2 "TERMINATED" (by decide)⟩

/-- C7: the Instance State Resolver fetches the metadata through exactly one
`get` call and extracts the address as the first access configuration's
external address of the first network interface — absent whenever any link in
that path is missing — and the status as the raw status field, the two being
independent: status with no interfaces gives (no address, that status), and
neither gives (no address, no status). -/
theorem resolver_extraction (a : FakeAdapter) (project zone instName : String)
    (meta : InstanceMeta) (hget : a.getResult = .ok meta) :
    getVmInstance a project zone instName =
      (.ok (extractVmState meta),
        [AdapterCall.getCall project zone instName]) ∧
    (∀ ni nis ac acs s, meta.networkInterfaces = some (ni :: nis) →
      ni.accessConfigs = some (ac :: acs) → ac.natIP = some s → s ≠ "" →
      (extractVmState meta).1 = some s) ∧
    (meta.networkInterfaces = none → (extractVmState meta).1 = none) ∧
    (meta.networkInterfaces = some [] → (extractVmState meta).1 = none) ∧
    (∀ ni nis, meta.networkInterfaces = some (ni :: nis) →
      ni.accessConfigs = none → (extractVmState meta).1 = none) ∧
    (∀ ni nis, meta.networkInterfaces = some (ni :: nis) →
      ni.accessConfigs = some [] → (extractVmState meta).1 = none) ∧
    (∀ ni nis ac acs, meta.networkInterfaces = some (ni :: nis) →
      ni.accessConfigs = some (ac :: acs) → ac.natIP = none →
      (extractVmState meta).1 = none) ∧
    (∀ s, meta.status = some s → s ≠ "" → (extractVmState meta).2 = some s) ∧
    (meta.status = none → (extractVmState meta).2 = none) := by
  refine ⟨by simp [getVmInstance, hget], ?_, ?_, ?_, ?_, ?_, ?_, ?_, ?_⟩
  · intro ni nis ac acs s h1 h2 h3 h4
    simp [extractVmState, h1, h2, h3, truthy, h4]
  · intro h1
    simp [extractVmState, h1, truthy]
  · intro h1
    simp [extractVmState, h1, truthy]
  · intro ni nis h1 h2
    simp [extractVmState, h1, h2, truthy]
  · intro ni nis h1 h2
    simp [extractVmState, h1, h2, truthy]
  · intro ni nis ac acs h1 h2 h3
    simp [extractVmState, h1, h2, h3, truthy]
  · intro s h1 h2
    simp [extractVmState, h1, truthy, h2]
  · intro h1
    simp [extractVmState, h1, truthy]

/-- C7 witness: on running-instance metadata, the resolver performs one `get`
call and yields `(some "1.2.3.4", some "RUNNING")`; on metadata with a status
but no interfaces it yields `(none, some "TERMINATED")`. -/
theorem resolver_extraction_witness :
    getVmInstance A2 "p0" "z0" "i0" =
      (.ok (some "1.2.3.4", some "RUNNING"),
        [AdapterCall.getCall "p0" "z0" "i0"]) ∧
    getVmInstance A6 "p0" "z0" "i0" =
      (.ok (none, some "TERMINATED"),
        [AdapterCall.getCall "p0" "z0" "i0"]) :=
  ⟨((resolver_extraction A2 "p0" "z0" "i0" meta0 rfl).1).trans (by decide),
   ((resolver_extraction A6 "p0" "z0" "i0" meta6 rfl).1).trans (by decide)⟩

/-- Metadata whose first access configuration carries `natIP = ""`. -/
def metaEmptyIp (acs : List AccessConfig) (nis : List NetworkInterface)
    (st : Option String) : InstanceMeta :=
  ⟨some (⟨some (⟨some ""⟩ :: acs)⟩ :: nis), st⟩

/-- Metadata identical to `metaEmptyIp` except the first interface has an
empty access-configuration list. -/
def metaNoAc (nis : List NetworkInterface) (st : Option String) :
    InstanceMeta :=
  ⟨some (⟨some []⟩ :: nis), st⟩

/-- C9: an empty-string `natIP` is normalized to an absent address: `getVmIP`
fails with the IP-not-found message exactly as when no access configuration
exists at all, the status text renders without an address line (no blank
line), and an empty-string status field is likewise dropped. -/
theorem empty_string_fields_dropped (a : FakeAdapter) (project : String)
    (req : Request) (zone instName : String) (acs : List AccessConfig)
    (nis : List NetworkInterface) (st : Option String)
    (hreq : reqZoneInstance req = .ok (zone, instName))
    (hget : a.getResult = .ok (metaEmptyIp acs nis st)) :
    (extractVmState (metaEmptyIp acs nis st)).1 = none ∧
    getVmIP a project zone instName =
      (.error (ipNotFoundMsg zone instName),
        [AdapterCall.getCall project zone instName]) ∧
    (∀ a' : FakeAdapter, a'.getResult = .ok (metaNoAc nis st) →
      getVmIP a' project zone instName = getVmIP a project zone instName) ∧
    (∀ s, st = some s → s ≠ "" →
      vmStatusFunc a project req =
        (⟨200, s ++ "\n"⟩, [AdapterCall.getCall project zone instName])) ∧
    (st = some "" → (extractVmState (metaEmptyIp acs nis st)).2 = none) := by
  have hx : (extractVmState (metaEmptyIp acs nis st)).1 = none := by
    simp [extractVmState, metaEmptyIp, truthy]
  refine ⟨hx, ?_, ?_, ?_, ?_⟩
  · simp [getVmIP, getVmInstance, hget, hx]
  · intro a' hget'
    have hx' : (extractVmState (metaNoAc nis st)).1 = none := by
      simp [extractVmState, metaNoAc, truthy]
    simp [getVmIP, getVmInstance, hget, hget', hx, hx']
  · intro s hs hs2
    have hst : extractVmState (metaEmptyIp acs nis st) = (none, some s) := by
      simp [extractVmState, metaEmptyIp, truthy, hs, hs2]
    simp only [vmStatusFunc, hreq, vmStatusString, getVmInstance, hget, hst]
    rfl
  · intro hs
    simp [extractVmState, metaEmptyIp, truthy, hs]

/-- An adapter whose instance metadata has `natIP = ""` and a status. -/
def A9 : FakeAdapter :=
  { A2 with getResult := .ok (metaEmptyIp [] [] (some "STOPPING")) }

/-- C9 witness: with `natIP = ""` and `status = "STOPPING"`, the resolver
reports no address, `getVmIP` fails with the IP-not-found message, and the
status route renders `"STOPPING\n"` with no blank address line. -/
theorem empty_string_fields_dropped_witness :
    (extractVmState (metaEmptyIp [] [] (some "STOPPING"))).1 = none ∧
    getVmIP A9 "p0" "z0" "i0" =
      (.error (ipNotFoundMsg "z0" "i0"),
        [AdapterCall.getCall "p0" "z0" "i0"]) ∧
    vmStatusFunc A9 "p0" R0 =
      (⟨200, "STOPPING\n"⟩, [AdapterCall.getCall "p0" "z0" "i0"]) := by
  have h := empty_string_fields_dropped A9 "p0" R0 "z0" "i0" [] []
    (some "STOPPING") (by decide) rfl
  exact ⟨h.1, h.2.1, h.2.2.2.1 "STOPPING" rfl (by decide)⟩

/-- C10: a request whose effective `zone` or `instance` parameter is missing
makes every route answer 500 with a client-input error and an empty adapter
trace — no control-plane or probe call is ever made — and the zone check
precedes the instance check: whenever `zone` is missing (in particular when
both are) the reported message is `"Required parameter 'zone' missing"`. -/
theorem missing_params_rejected_first (a : FakeAdapter) (project : String)
    (req : Request) (h : effZone req = none ∨ effInstance req = none) :
    ∃ m, reqZoneInstance req = .error m ∧
      vmStartFunc a project req = some (⟨500, "Error: " ++ m⟩, []) ∧
      vmStopFunc a project req = some (⟨500, "Error: " ++ m⟩, []) ∧
      vmRestartFunc a project req = some (⟨500, "Error: " ++ m⟩, []) ∧
      vmStatusFunc a project req = (⟨500, "Error: " ++ m⟩, []) ∧
      mcsStatusFunc a project req = (⟨500, "Error: " ++ m⟩, []) ∧
      mcsPlayersFunc a project req = (⟨500, "Error: " ++ m⟩, []) ∧
      mcsPlayerListFunc a project req = (⟨500, "Error: " ++ m⟩, []) ∧
      (effZone req = none → m = "Required parameter 'zone' missing") := by
  have hm : ∃ m, reqZoneInstance req = .error m ∧
      (effZone req = none → m = "Required parameter 'zone' missing") := by
    rcases h with h | h
    · exact ⟨"Required parameter 'zone' missing",
        by simp [reqZoneInstance, h], fun _ => rfl⟩
    · cases hz : effZone req with
      | none => exact ⟨"Required parameter 'zone' missing",
          by simp [reqZoneInstance, hz], fun _ => rfl⟩
      | some z =>
        refine ⟨"Required parameter 'instance' missing",
          by simp [reqZoneInstance, hz, h], fun hzn => ?_⟩
        exact absurd hzn (by simp)
  obtain ⟨m, hm1, hm2⟩ := hm
  exact ⟨m, hm1,
    by simp [vmStartFunc, hm1],
    by simp [vmStopFunc, hm1],
    by simp [vmRestartFunc, hm1],
    by simp [vmStatusFunc, hm1],
    by simp [mcsStatusFunc, hm1],
    by simp [mcsPlayersFunc, hm1],
    by simp [mcsPlayerListFunc, hm1],
    hm2⟩

/-- C10 witness: with both parameters absent everywhere, the start and the
player-list routes both answer 500 with the zone-missing message and make no
adapter call. -/
theorem missing_params_rejected_first_witness :
    vmStartFunc A2 "p0" ⟨none, none, none, none⟩ =
      some (⟨500, "Error: Required parameter 'zone' missing"⟩, []) ∧
    mcsPlayerListFunc A2 "p0" ⟨none, none, none, none⟩ =
      (⟨500, "Error: Required parameter 'zone' missing"⟩, []) := by
  obtain ⟨m, hm, h1, h2, h3, h4, h5, h6, h7, hz⟩ :=
    missing_params_rejected_first A2 "p0" ⟨none, none, none, none⟩
      (Or.inl rfl)
  have hm' := hz rfl
  subst hm'
  exact ⟨h1, h7⟩

end Mcsapi
